import Mathlib

/-!
Verification of the platform-search abstraction layer of the
mcp-server-file-search repository (Python), as a shallow embedding.

Sources embedded:
- src/mcp_server_everything_search/everything_sdk.py   (native Everything binding)
- src/mcp_server_everything_search/search_interface.py (providers, result model)
- src/mcp_server_everything_search/platform_search.py  (query models, validation)
- src/mcp_server_everything_search/server.py           (call_tool handler)

Modelling conventions:
- Machine integers are Nat/Int. Timestamp values carried inside results
  are opaque rational values supplied by the oracles; the native
  filetime-to-datetime float computation is not embedded (its precision
  depends on IEEE-754 double rounding and interpreter internals, outside
  the scope of this development).
- Side effects (subprocess runs, stat calls, the Everything DLL) are
  oracles passed in explicitly (ProcResult, PathEnv, WorldEnv fields).
- Python exceptions are Except String; a raised-and-caught exception is an
  Except.error value.
- datetime rendering is abstracted as the canonical string representation
  of the carried rational timestamp value.
-/

/-! ## String helpers (Python semantics) -/

/-- Python ASCII lowering, standing in for str.lower as used on stderr text. -/
def strLower (s : String) : String := String.mk (s.toList.map Char.toLower)

/-- Is the first list a prefix of the second (by char equality)? -/
def isPrefixList : List Char → List Char → Bool
  | [], _ => true
  | _ :: _, [] => false
  | a :: as, b :: bs => a == b && isPrefixList as bs

/-- Does the haystack contain the pattern as a contiguous infix?
Mirrors the Python `pat in s` operator on strings. -/
def listContainsSub : List Char → List Char → Bool
  | [], pat => pat.isEmpty
  | h :: t, pat => isPrefixList pat (h :: t) || listContainsSub t pat

/-- Python substring containment `pat in s`. -/
def containsSubstr (s pat : String) : Bool := listContainsSub s.toList pat.toList

/-- Python str.splitlines on text already normalised to LF (subprocess ran
with text=True, so universal newlines apply): split on newline and drop
the final empty piece produced by a trailing newline. -/
def pySplitlines (s : String) : List String :=
  let parts := s.splitOn "\n"
  match parts.getLast? with
  | some "" => parts.dropLast
  | _ => parts

/-- Posix os.path.basename: the substring after the last slash. -/
def osBasename (p : String) : String :=
  String.mk ((p.toList.reverse.takeWhile (fun c => c != '/')).reverse)

/-! ## Result model: search_interface.SearchResult (dataclass).
All fields other than path and filename default to None. -/

structure ISearchResult where
  path : String
  filename : String
  extension : Option String := none
  size : Option Nat := none
  created : Option ℚ := none
  modified : Option ℚ := none
  accessed : Option ℚ := none
  attributes : Option String := none
deriving DecidableEq

/-- Interface-model construction supplying only the required fields,
all others taking their declared defaults. -/
def mkIResultMinimal (path filename : String) : ISearchResult :=
  { path := path, filename := filename }

/-! ## Result model: everything_sdk.SearchResult (pydantic).
path, filename and size are required (size: int, no default); the
remaining fields default to None. -/

structure SDKSearchResult where
  path : String
  filename : String
  extension : Option String := none
  size : Nat
  created : Option ℚ := none
  modified : Option ℚ := none
  accessed : Option ℚ := none
  attributes : Option Nat := none
  run_count : Option Nat := none
  highlighted_filename : Option String := none
  highlighted_path : Option String := none
deriving DecidableEq

/-- Keyword arguments offered to the pydantic SDK SearchResult constructor;
none means the field was not supplied. -/
structure SdkKwargs where
  path : Option String := none
  filename : Option String := none
  extension : Option String := none
  size : Option Nat := none
  created : Option ℚ := none
  modified : Option ℚ := none
  accessed : Option ℚ := none
  attributes : Option Nat := none
  run_count : Option Nat := none
  highlighted_filename : Option String := none
  highlighted_path : Option String := none

/-- Pydantic validation of the SDK SearchResult model: path, filename and
size are required and have no default; every other field defaults to None. -/
def sdkValidate (kw : SdkKwargs) : Except String SDKSearchResult :=
  match kw.path, kw.filename, kw.size with
  | some p, some f, some s =>
    Except.ok { path := p, filename := f, extension := kw.extension, size := s,
                created := kw.created, modified := kw.modified, accessed := kw.accessed,
                attributes := kw.attributes, run_count := kw.run_count,
                highlighted_filename := kw.highlighted_filename,
                highlighted_path := kw.highlighted_path }
  | _, _, _ => Except.error "validation error: missing required field"

/-! ## Native result-extraction loop (everything_sdk.py lines 242-275).
The per-index try-block (field reads, pydantic construction) is an oracle
extract : Nat → Option SDKSearchResult; none models a raised-and-logged
exception for that index, which the loop skips with continue. -/

/-- The for-loop over result indices 0..n-1, appending each successfully
extracted result and skipping failing indices. -/
def resultLoop (extract : ℕ → Option SDKSearchResult) : ℕ → List SDKSearchResult
  | 0 => []
  | n + 1 => resultLoop extract n ++ (extract n).toList

/-- search_files result read-back: num_results = min(GetNumResults(), max_results),
then the extraction loop. -/
def nativeSearchResults (reported maxResults : ℕ)
    (extract : ℕ → Option SDKSearchResult) : List SDKSearchResult :=
  resultLoop extract (min reported maxResults)

/-- EverythingError._get_error_message over the SDK error enumeration. -/
def everythingErrorMessage (code : ℕ) : String :=
  match code with
  | 1 => "Failed to allocate memory"
  | 2 => "IPC failed (Everything service not running?)"
  | 3 => "Failed to register window class"
  | 4 => "Failed to create window"
  | 5 => "Failed to create thread"
  | 6 => "Invalid index"
  | 7 => "Invalid call"
  | c => "Unknown error: " ++ toString c

/-! ## External-process providers (search_interface.py) -/

/-- Outcome of one subprocess.run invocation (oracle). -/
structure ProcResult where
  returncode : Int
  stdoutS : String
  stderrS : String

/-- Environment for one path: the stat outcome (none models a raised
OSError/ValueError) and the pathlib.Path views used on the success branch. -/
structure StatInfo where
  size : Nat
  ctime : ℚ
  mtime : ℚ
  atime : ℚ

structure PathEnv where
  statInfo : Option StatInfo
  pathStr : String
  name : String
  suffix : String

/-- SearchProvider._convert_path_to_result: on stat success, populate all
metadata from the stat record and the Path views; on stat failure, emit a
degraded result carrying only the raw path and its basename. -/
def convertPathToResult (env : PathEnv) (path : String) : ISearchResult :=
  match env.statInfo with
  | some st =>
    { path := env.pathStr, filename := env.name,
      extension := if env.suffix = "" then none else some (env.suffix.drop 1),
      size := some st.size, created := some st.ctime,
      modified := some st.mtime, accessed := some st.atime }
  | none => { path := path, filename := osBasename path }

/-- The locate stderr classification (search_interface.py lines 169-170):
lowercase stderr containing a database indicator. -/
def dbIndicator (stderrS : String) : Bool :=
  containsSubstr (strLower stderrS) "no such file or directory" ||
  containsSubstr (strLower stderrS) "database"

/-- LinuxSearchProvider error text for a non-zero locate exit. -/
def linuxError (locateType locateCmd stderrS : String) : String :=
  if dbIndicator stderrS then
    "The " ++ locateType ++ " database needs to be created. Please run: sudo updatedb"
  else locateCmd ++ " failed: " ++ stderrS

/-- MacSearchProvider error text for a non-zero mdfind exit. -/
def macError (stderrS : String) : String := "mdfind failed: " ++ stderrS

/-- MacSearchProvider.search_files: run mdfind (outcome given by proc);
non-zero exit raises; otherwise splitlines, truncate to max_results and
convert each path. -/
def macSearchFiles (pathEnv : String → PathEnv) (proc : ProcResult)
    (maxResults : ℕ) : Except String (List ISearchResult) :=
  if proc.returncode ≠ 0 then Except.error (macError proc.stderrS)
  else Except.ok (((pySplitlines proc.stdoutS).take maxResults).map
    (fun p => convertPathToResult (pathEnv p) p))

/-- LinuxSearchProvider.search_files: run locate; non-zero exit raises the
database-remediation error or the generic failure; otherwise splitlines,
truncate to max_results and convert each path. -/
def linuxSearchFiles (locateType locateCmd : String) (pathEnv : String → PathEnv)
    (proc : ProcResult) (maxResults : ℕ) : Except String (List ISearchResult) :=
  if proc.returncode ≠ 0 then Except.error (linuxError locateType locateCmd proc.stderrS)
  else Except.ok (((pySplitlines proc.stdoutS).take maxResults).map
    (fun p => convertPathToResult (pathEnv p) p))

/-! ## WindowsSearchProvider query text normalization
(search_interface.py lines 213-216): query.replace with double backslash
collapsed to single, then forward slash to backslash. -/

/-- Python str.replace of a doubled backslash by a single one
(left-to-right, non-overlapping). -/
def collapseDB : List Char → List Char
  | [] => []
  | [c] => [c]
  | c1 :: c2 :: rest =>
    if c1 = '\\' ∧ c2 = '\\' then c1 :: collapseDB rest
    else c1 :: collapseDB (c2 :: rest)

/-- Python str.replace of each forward slash by a backslash. -/
def slashToBackslash : List Char → List Char
  | [] => []
  | c :: t => (if c = '/' then '\\' else c) :: slashToBackslash t

/-- The WindowsSearchProvider query normalization: collapse doubled
backslashes, then turn forward slashes into backslashes. -/
def winNormalize (s : String) : String :=
  String.mk (slashToBackslash (collapseDB s.toList))

/-- Does the char list contain two adjacent backslashes? -/
def hasDB : List Char → Bool
  | [] => false
  | [_] => false
  | c1 :: c2 :: rest => (c1 == '\\' && c2 == '\\') || hasDB (c2 :: rest)

/-! ## Query validation (platform_search.BaseSearchQuery).
max_results: Field(default=100, ge=1, le=1000) — pydantic rejects values
outside [1,1000] with a validation error; absent defaults to 100. -/

def validateMaxResults (v : Option Int) : Except String Int :=
  match v with
  | none => Except.ok 100
  | some n => if 1 ≤ n ∧ n ≤ 1000 then Except.ok n else Except.error "max_results out of range"

/-! ## call_tool keyword dispatch (server.py lines 278-290).
The non-Windows branches expand the platform parameter bag as keyword
arguments of search_files; Python raises TypeError on any keyword not in
the callee signature. -/

/-- The keyword parameters accepted by every provider search_files signature. -/
def searchKwargNames : List String :=
  ["query", "max_results", "match_path", "match_case", "match_whole_word",
   "match_regex", "sort_by"]

/-- Keys of LinuxSpecificParams.dict() (platform_search.py). -/
def linuxParamsDictKeys : List String :=
  ["ignore_case", "regex_search", "existing_files", "count_only"]

/-- Keys of MacSpecificParams.dict() (platform_search.py). -/
def macParamsDictKeys : List String :=
  ["live_updates", "search_directory", "literal_query", "interpret_query"]

/-- Python keyword-argument binding: the call raises TypeError at the first
supplied keyword the callee does not accept. -/
def applyKwargs (accepted supplied : List String) : Except String Unit :=
  match supplied.find? (fun k => !(accepted.contains k)) with
  | some k => Except.error ("search_files() got an unexpected keyword argument " ++ k)
  | none => Except.ok ()

/-- Keywords supplied by the linux branch of call_tool: query and
max_results plus, when a linux_params bag was given, its dict keys. -/
def linuxCallKwargs (hasParams : Bool) : List String :=
  ["query", "max_results"] ++ (if hasParams then linuxParamsDictKeys else [])

/-- Keywords supplied by the darwin branch of call_tool. -/
def macCallKwargs (hasParams : Bool) : List String :=
  ["query", "max_results"] ++ (if hasParams then macParamsDictKeys else [])

/-! ## call_tool pipeline (server.py lines 220-309) -/

inductive PlatformOS where
  | linuxOS
  | darwinOS
  | windowsOS

/-- The fields of a parsed base-arguments dictionary that the pipeline
consumes; the bags are tracked by presence. -/
structure BaseDict where
  query : Option String := none
  max_results : Option Int := none
  linux_params : Bool := false
  mac_params : Bool := false

/-- An untyped argument value: a JSON string (with its decode outcome as an
oracle), a dictionary, or anything else. -/
inductive ArgVal where
  | jstr (s : String) (parsed : Option BaseDict)
  | dict (d : BaseDict)
  | other

/-- The raw arguments map of a call to the search tool. -/
structure ToolArgs where
  base : Option ArgVal := none
  windows_params : Option ArgVal := none

/-- call_tool base-parameter handling: absent means empty dict; a JSON
string is decoded, a failed decode becomes a bare query string; a dict is
used directly; anything else raises ValueError. -/
def parseBase : Option ArgVal → Except String BaseDict
  | none => Except.ok {}
  | some (ArgVal.jstr s parsed) =>
    match parsed with
    | some d => Except.ok d
    | none => Except.ok { query := some s }
  | some (ArgVal.dict d) => Except.ok d
  | some ArgVal.other => Except.error "base parameter must be a string or dictionary"

/-- call_tool windows_params handling: a JSON string that fails to decode
raises, as does any non-string non-dict value. -/
def parseWindowsParams : Option ArgVal → Except String Bool
  | none => Except.ok false
  | some (ArgVal.jstr _ parsed) =>
    match parsed with
    | some _ => Except.ok true
    | none => Except.error "Invalid JSON in windows_params"
  | some (ArgVal.dict _) => Except.ok true
  | some ArgVal.other => Except.error "windows_params must be a string or dictionary"

/-- The validated UnifiedSearchQuery the pipeline dispatches. -/
structure UQuery where
  query : String
  maxResults : Int
  linuxParams : Bool
  macParams : Bool

/-- UnifiedSearchQuery construction: query is required, max_results is
validated into [1,1000] (default 100). -/
def buildQuery (b : BaseDict) : Except String UQuery :=
  match b.query with
  | none => Except.error "validation error: query field required"
  | some q =>
    match validateMaxResults b.max_results with
    | Except.error e => Except.error e
    | Except.ok m =>
      Except.ok { query := q, maxResults := m,
                  linuxParams := b.linux_params, macParams := b.mac_params }

/-- All effectful collaborators of one search invocation, as oracles. -/
structure WorldEnv where
  pathEnv : String → PathEnv
  proc : ProcResult
  locateType : String
  locateCmd : String
  reportedResults : ℕ
  extract : ℕ → Option SDKSearchResult
  queryOk : Bool
  queryErrCode : ℕ

/-- EverythingSDK.search_files control flow: a failed Everything_QueryW
raises the SDK error for a non-zero last-error code, else the generic
RuntimeError; on success, read back min(reported, max_results) results. -/
def nativeQuery (env : WorldEnv) (maxResults : ℕ) : Except String (List SDKSearchResult) :=
  if env.queryOk then
    Except.ok (nativeSearchResults env.reportedResults maxResults env.extract)
  else if env.queryErrCode ≠ 0 then Except.error (everythingErrorMessage env.queryErrCode)
  else Except.error "Search query failed"

/-- The uniform view of a result that the formatting block reads. -/
structure ResultView where
  path : String
  filename : String
  extension : Option String
  size : Option Nat
  created : Option String
  modified : Option String
  accessed : Option String
deriving DecidableEq

/-- Rendering of a decoded timestamp (abstraction of datetime display). -/
def ratRepr (q : ℚ) : String := toString q

def iView (r : ISearchResult) : ResultView :=
  ⟨r.path, r.filename, r.extension, r.size, r.created.map ratRepr,
   r.modified.map ratRepr, r.accessed.map ratRepr⟩

def sdkView (r : SDKSearchResult) : ResultView :=
  ⟨r.path, r.filename, r.extension, some r.size, r.created.map ratRepr,
   r.modified.map ratRepr, r.accessed.map ratRepr⟩

/-- Platform dispatch of call_tool: the windows branch passes the bag
fields by name; the darwin and linux branches expand the bag dict as
keyword arguments (raising TypeError on keywords the provider signature
does not accept) and then run the external-process provider. -/
def dispatchQuery (os : PlatformOS) (env : WorldEnv) (q : UQuery) :
    Except String (List ResultView) :=
  match os with
  | PlatformOS.windowsOS =>
    (nativeQuery env q.maxResults.toNat).map (List.map sdkView)
  | PlatformOS.darwinOS =>
    match applyKwargs searchKwargNames (macCallKwargs q.macParams) with
    | Except.error e => Except.error e
    | Except.ok _ =>
      (macSearchFiles env.pathEnv env.proc q.maxResults.toNat).map (List.map iView)
  | PlatformOS.linuxOS =>
    match applyKwargs searchKwargNames (linuxCallKwargs q.linuxParams) with
    | Except.error e => Except.error e
    | Except.ok _ =>
      (linuxSearchFiles env.locateType env.locateCmd env.pathEnv env.proc
        q.maxResults.toNat).map (List.map iView)

/-- One result block of the response text; formatting a result whose size
is absent raises TypeError (Python cannot apply the comma format spec to
None), which the handler catches. -/
def formatOne (r : ResultView) : Except String String :=
  match r.size with
  | none => Except.error "unsupported format string passed to NoneType.__format__"
  | some sz =>
    Except.ok ("Path: " ++ r.path ++ "\n" ++
      "Filename: " ++ r.filename ++
      (match r.extension with | some e => " (" ++ e ++ ")" | none => "") ++ "\n" ++
      "Size: " ++ toString sz ++ " bytes\n" ++
      "Created: " ++ r.created.getD "N/A" ++ "\n" ++
      "Modified: " ++ r.modified.getD "N/A" ++ "\n" ++
      "Accessed: " ++ r.accessed.getD "N/A" ++ "\n")

def formatResults (rs : List ResultView) : Except String String :=
  (rs.mapM formatOne).map (String.intercalate "\n")

/-- The body of the try-block of call_tool for the search tool. -/
def searchPipeline (os : PlatformOS) (env : WorldEnv) (args : ToolArgs) :
    Except String String := do
  let b ← parseBase args.base
  let _ ← parseWindowsParams args.windows_params
  let q ← buildQuery b
  let rs ← dispatchQuery os env q
  formatResults rs

/-- call_tool for the search tool: the whole pipeline is wrapped in a
try/except that renders any exception as a single text item. -/
def callToolSearch (os : PlatformOS) (env : WorldEnv) (args : ToolArgs) : List String :=
  match searchPipeline os env args with
  | Except.ok t => [t]
  | Except.error e => ["Search failed: " ++ e]

/-! ## Concrete fixtures used by witnesses and counterexamples -/

def emptyPathEnv : PathEnv := { statInfo := none, pathStr := "", name := "", suffix := "" }

def constPathEnv : String → PathEnv := fun _ => emptyPathEnv

def sdkResultEx : SDKSearchResult := { path := "C:\\a", filename := "a", size := 0 }

def sdkExtractEx : ℕ → Option SDKSearchResult :=
  fun i => if i = 1 then none else some sdkResultEx

def procOkEx : ProcResult := ⟨0, "a\nb\nc\nd\ne\nf\ng", ""⟩

def exampleEnv : WorldEnv :=
  { pathEnv := constPathEnv, proc := procOkEx, locateType := "plocate",
    locateCmd := "plocate", reportedResults := 7, extract := sdkExtractEx,
    queryOk := true, queryErrCode := 0 }

/-! ## Helper lemmas -/

/-- The extraction loop is the in-order filterMap of the per-index
extraction over the index range. -/
theorem resultLoop_eq_filterMap (extract : ℕ → Option SDKSearchResult) (n : ℕ) :
    resultLoop extract n = (List.range n).filterMap extract := by
  induction n with
  | zero => rfl
  | succ n ih =>
    rw [resultLoop, ih, List.range_succ, List.filterMap_append]
    cases h : extract n <;> simp [h, Option.toList]

theorem length_resultLoop_le (extract : ℕ → Option SDKSearchResult) (n : ℕ) :
    (resultLoop extract n).length ≤ n := by
  rw [resultLoop_eq_filterMap]
  calc ((List.range n).filterMap extract).length
      ≤ (List.range n).length := List.length_filterMap_le _ _
    _ = n := List.length_range n

theorem collapseDB_eq_self : ∀ l : List Char, hasDB l = false → collapseDB l = l
  | [], _ => rfl
  | [_], _ => rfl
  | c1 :: c2 :: rest, h => by
    have h' : ¬(c1 = '\\' ∧ c2 = '\\') ∧ hasDB (c2 :: rest) = false := by
      simp only [hasDB, Bool.or_eq_false_iff, Bool.and_eq_false_iff] at h
      refine ⟨?_, h.2⟩
      rintro ⟨e1, e2⟩
      subst e1; subst e2
      rcases h.1 with hc | hc <;> simp at hc
    rw [collapseDB, if_neg h'.1]
    exact congrArg (c1 :: ·) (collapseDB_eq_self (c2 :: rest) h'.2)

theorem slashToBackslash_eq_self : ∀ l : List Char, '/' ∉ l → slashToBackslash l = l
  | [], _ => rfl
  | c :: t, h => by
    have hc : ¬c = '/' := fun e => h (e ▸ List.mem_cons_self c t)
    have ht : '/' ∉ t := fun m => h (List.mem_cons_of_mem c m)
    rw [slashToBackslash, if_neg hc]
    exact congrArg (c :: ·) (slashToBackslash_eq_self t ht)

theorem osBasename_ne_empty (p : String) (h1 : p.toList ≠ [])
    (h2 : p.toList.getLast? ≠ some '/') : osBasename p ≠ "" := by
  obtain ⟨c, t, e⟩ : ∃ c t, p.toList.reverse = c :: t := by
    cases hr : p.toList.reverse with
    | nil => exact absurd (List.reverse_eq_nil_iff.mp hr) h1
    | cons c t => exact ⟨c, t, rfl⟩
  have hc : (c != '/') = true := by
    have : p.toList.reverse.head? = some c := by rw [e]; rfl
    rw [List.head?_reverse] at this
    exact bne_iff_ne.mpr (fun ec => h2 (by rw [this, ec]))
  intro he
  have hdata : ((p.toList.reverse.takeWhile (fun c => c != '/')).reverse) = [] :=
    congrArg String.data he
  rw [e, List.takeWhile_cons, if_pos hc, List.reverse_cons] at hdata
  exact absurd hdata (by simp)

/-! ## Claims -/

/-- Claim C1: for every search invocation with max_results in [1,1000], on
every provider (native binding, mdfind provider, locate provider), the
returned sequence of SearchResult records has length at most max_results. -/
theorem c1_results_length_le_max_results (m reported : ℕ)
    (extract : ℕ → Option SDKSearchResult) (locateType locateCmd : String)
    (pathEnv : String → PathEnv) (procM procL : ProcResult)
    (_ : 1 ≤ m) (_ : m ≤ 1000) :
    (nativeSearchResults reported m extract).length ≤ m ∧
    (∀ rs, macSearchFiles pathEnv procM m = Except.ok rs → rs.length ≤ m) ∧
    (∀ rs, linuxSearchFiles locateType locateCmd pathEnv procL m = Except.ok rs →
      rs.length ≤ m) := by
  refine ⟨?_, ?_, ?_⟩
  · calc (nativeSearchResults reported m extract).length
        ≤ min reported m := length_resultLoop_le _ _
      _ ≤ m := Nat.min_le_right _ _
  · intro rs hok
    unfold macSearchFiles at hok
    split at hok
    · exact absurd hok (by simp)
    · have : rs = ((pySplitlines procM.stdoutS).take m).map
          (fun p => convertPathToResult (pathEnv p) p) := by
        cases hok; rfl
      rw [this, List.length_map, List.length_take]
      exact Nat.min_le_left _ _
  · intro rs hok
    unfold linuxSearchFiles at hok
    split at hok
    · exact absurd hok (by simp)
    · have : rs = ((pySplitlines procL.stdoutS).take m).map
          (fun p => convertPathToResult (pathEnv p) p) := by
        cases hok; rfl
      rw [this, List.length_map, List.length_take]
      exact Nat.min_le_left _ _

/-- Witness for C1 at concrete inputs: max_results 5, seven reported
native results, seven stdout lines. -/
theorem c1_results_length_le_max_results_witness :
    1 ≤ 5 ∧ (5 : ℕ) ≤ 1000 ∧
    (nativeSearchResults 7 5 sdkExtractEx).length ≤ 5 ∧
    (∀ rs, macSearchFiles constPathEnv procOkEx 5 = Except.ok rs → rs.length ≤ 5) :=
  ⟨by decide, by decide,
    (c1_results_length_le_max_results 5 7 sdkExtractEx "plocate" "plocate"
      constPathEnv procOkEx procOkEx (by decide) (by decide)).1,
    (c1_results_length_le_max_results 5 7 sdkExtractEx "plocate" "plocate"
      constPathEnv procOkEx procOkEx (by decide) (by decide)).2.1⟩

/-- Counterexample to C2 as stated: an incoming max_results of 1001 is not
clamped to 1000 and dispatched; query construction rejects it with a
validation error. -/
theorem c2_clamp_counterexample :
    validateMaxResults (some 1001) = Except.error "max_results out of range" ∧
    validateMaxResults (some 1001) ≠ Except.ok 1000 :=
  ⟨rfl, fun h => by simp [validateMaxResults] at h⟩

/-- Claim C2 (amended): query construction validates max_results against
[1,1000] — an in-range value passes through unchanged, an out-of-range
value (non-positive or above 1000) is rejected with a validation error and
never clamped, and an absent value defaults to 100. -/
theorem c2_max_results_validation (n : Int) :
    (validateMaxResults (some n) = Except.ok n ↔ 1 ≤ n ∧ n ≤ 1000) ∧
    (validateMaxResults (some n) = Except.ok n ∨
      validateMaxResults (some n) = Except.error "max_results out of range") ∧
    validateMaxResults none = Except.ok 100 := by
  by_cases hc : 1 ≤ n ∧ n ≤ 1000 <;> simp [validateMaxResults, hc]

/-- Claim C8: in the native result-extraction loop, a result index whose
extraction fails is skipped while extraction continues — the loop output is
exactly the in-order sequence of successful extractions, and every
successfully extracted result is returned. -/
theorem c8_extraction_skips_failures (extract : ℕ → Option SDKSearchResult)
    (n i : ℕ) (r : SDKSearchResult) (hi : i < n) (hr : extract i = some r) :
    r ∈ resultLoop extract n ∧
    resultLoop extract n = (List.range n).filterMap extract := by
  refine ⟨?_, resultLoop_eq_filterMap extract n⟩
  rw [resultLoop_eq_filterMap]
  exact List.mem_filterMap.mpr ⟨i, List.mem_range.mpr hi, hr⟩

/-- Witness for C8: index 1 fails extraction, yet the result extracted at
index 2 is in the batch. -/
theorem c8_extraction_skips_failures_witness :
    (2 : ℕ) < 3 ∧ sdkExtractEx 2 = some sdkResultEx ∧
    sdkResultEx ∈ resultLoop sdkExtractEx 3 :=
  ⟨by decide, rfl,
    (c8_extraction_skips_failures sdkExtractEx 3 2 sdkResultEx (by decide) rfl).1⟩

/-- Counterexample to C4 as stated: when the stat call fails for the path
string "gone/" (a vanished directory entry written with a trailing
separator), the emitted SearchResult has an empty filename, so the
filename is not always non-empty. -/
theorem c4_nonempty_filename_counterexample :
    (convertPathToResult emptyPathEnv "gone/").filename = "" ∧ "gone/" ≠ "" :=
  ⟨rfl, by decide⟩

/-- Claim C4 (amended): for every path string whose stat call fails, the
provider still emits a SearchResult — the row is never dropped — whose
path equals the input and whose filename is the basename of the path
(non-empty whenever the path is non-empty and does not end in a
separator), with extension, size, created, modified and accessed all
absent. -/
theorem c4_stat_failure_degraded_row (path : String) (env : PathEnv)
    (h : env.statInfo = none) :
    (convertPathToResult env path).path = path ∧
    (convertPathToResult env path).filename = osBasename path ∧
    (convertPathToResult env path).extension = none ∧
    (convertPathToResult env path).size = none ∧
    (convertPathToResult env path).created = none ∧
    (convertPathToResult env path).modified = none ∧
    (convertPathToResult env path).accessed = none ∧
    (path.toList ≠ [] → path.toList.getLast? ≠ some '/' →
      (convertPathToResult env path).filename ≠ "") := by
  have hred : convertPathToResult env path = { path := path, filename := osBasename path } := by
    unfold convertPathToResult
    rw [h]
  rw [hred]
  exact ⟨rfl, rfl, rfl, rfl, rfl, rfl, rfl,
    fun h1 h2 => osBasename_ne_empty path h1 h2⟩

/-- Witness for C4 on a concrete vanished path. -/
theorem c4_stat_failure_degraded_row_witness :
    emptyPathEnv.statInfo = none ∧
    (convertPathToResult emptyPathEnv "src/utils.py").path = "src/utils.py" ∧
    (convertPathToResult emptyPathEnv "src/utils.py").size = none ∧
    (convertPathToResult emptyPathEnv "src/utils.py").filename ≠ "" :=
  ⟨rfl,
   (c4_stat_failure_degraded_row "src/utils.py" emptyPathEnv rfl).1,
   (c4_stat_failure_degraded_row "src/utils.py" emptyPathEnv rfl).2.2.2.1,
   (c4_stat_failure_degraded_row "src/utils.py" emptyPathEnv rfl).2.2.2.2.2.2.2
     (by decide) (by decide)⟩

/-- Counterexample to C5 as stated: on the mdfind provider, a non-zero
exit whose stderr indicates a missing index database still raises only the
generic failure — the error names no remediation command at all. -/
theorem c5_mac_no_remediation_counterexample :
    macSearchFiles constPathEnv ⟨1, "", "index database missing"⟩ 10 =
      Except.error ("mdfind failed: " ++ "index database missing") ∧
    dbIndicator "index database missing" = true ∧
    containsSubstr ("mdfind failed: " ++ "index database missing") "sudo updatedb" = false ∧
    containsSubstr ("mdfind failed: " ++ "index database missing") "updatedb" = false :=
  ⟨rfl, by decide, by decide, by decide⟩

/-- Claim C5 (amended): on the locate provider a non-zero exit whose
stderr indicates a missing/unbuilt index database raises the specific
error naming the remediation command sudo updatedb, and any other
non-zero exit raises the generic failure naming the tool and the stderr
content; the mdfind provider raises the generic failure naming the tool
and the stderr content for every non-zero exit. -/
theorem c5_nonzero_exit_errors (locateType locateCmd : String)
    (pathEnv : String → PathEnv) (proc : ProcResult) (m : ℕ)
    (h : proc.returncode ≠ 0) :
    (dbIndicator proc.stderrS = true →
      linuxSearchFiles locateType locateCmd pathEnv proc m =
        Except.error ("The " ++ locateType ++
          " database needs to be created. Please run: sudo updatedb")) ∧
    (dbIndicator proc.stderrS = false →
      linuxSearchFiles locateType locateCmd pathEnv proc m =
        Except.error (locateCmd ++ " failed: " ++ proc.stderrS)) ∧
    macSearchFiles pathEnv proc m =
      Except.error ("mdfind failed: " ++ proc.stderrS) := by
  unfold linuxSearchFiles macSearchFiles linuxError macError
  rw [if_pos h, if_pos h]
  refine ⟨fun hdb => ?_, fun hdb => ?_, rfl⟩
  · rw [if_pos hdb]
  · rw [if_neg (by rw [hdb]; exact Bool.false_ne_true)]

/-- Witness for C5: a locate run exiting 1 with a database-indicating
stderr yields the remediation error. -/
theorem c5_nonzero_exit_errors_witness :
    (⟨1, "", "Database is missing"⟩ : ProcResult).returncode ≠ 0 ∧
    dbIndicator "Database is missing" = true ∧
    linuxSearchFiles "plocate" "plocate" constPathEnv ⟨1, "", "Database is missing"⟩ 10 =
      Except.error ("The " ++ "plocate" ++
        " database needs to be created. Please run: sudo updatedb") :=
  ⟨by decide, by decide,
   (c5_nonzero_exit_errors "plocate" "plocate" constPathEnv
     ⟨1, "", "Database is missing"⟩ 10 (by decide)).1 (by decide)⟩

/-- Claim C6 (code behavior at the failing input): dispatching a valid
query that carries the platform's own parameter bag expands the bag keys
as keyword arguments of search_files, which accepts none of them, so the
call raises an unexpected-keyword-argument TypeError instead of ignoring
the parameters; without the bag the same dispatch succeeds, and the
windows bag is ignored on the linux branch. -/
theorem c6_platform_params_kwarg_error :
    applyKwargs searchKwargNames (linuxCallKwargs true) =
      Except.error ("search_files() got an unexpected keyword argument " ++ "ignore_case") ∧
    applyKwargs searchKwargNames (linuxCallKwargs false) = Except.ok () ∧
    applyKwargs searchKwargNames (macCallKwargs true) =
      Except.error ("search_files() got an unexpected keyword argument " ++ "live_updates") ∧
    dispatchQuery PlatformOS.linuxOS exampleEnv
      { query := "test", maxResults := 5, linuxParams := true, macParams := false } =
      Except.error ("search_files() got an unexpected keyword argument " ++ "ignore_case") :=
  ⟨rfl, rfl, rfl, rfl⟩

/-- Claim C7: query text normalization on the native path is idempotent —
for every query string already in normalized form (no doubled backslashes,
no forward slashes), applying the normalization returns it unchanged. -/
theorem c7_normalize_idempotent (s : String)
    (h1 : hasDB s.toList = false) (h2 : '/' ∉ s.toList) :
    winNormalize s = s := by
  rw [winNormalize, collapseDB_eq_self s.toList h1, slashToBackslash_eq_self s.toList h2]
  rfl

/-- Witness for C7 on a concrete normalized query string. -/
theorem c7_normalize_idempotent_witness :
    hasDB "C:\\temp\\file.txt".toList = false ∧
    '/' ∉ "C:\\temp\\file.txt".toList ∧
    winNormalize "C:\\temp\\file.txt" = "C:\\temp\\file.txt" :=
  ⟨by decide, by decide, c7_normalize_idempotent _ (by decide) (by decide)⟩

/-- Counterexample to C9 as stated: in the native result model the size
field does not default to an explicit absent state — constructing a
SearchResult without a size is a validation error, so an unavailable size
has no absent representation there. -/
theorem c9_sdk_size_required_counterexample :
    sdkValidate { path := some "C:\\file.txt", filename := some "file.txt",
                  size := none } =
      Except.error "validation error: missing required field" := rfl

/-- Claim C9 (amended): every constructed SearchResult has path and
filename populated; on the interface model every other field defaults to
an explicit absent state, and on the native model extension, timestamps,
attributes, run count and highlighted fields default to an explicit absent
state, but size is a required integer with no default, so an unavailable
size cannot be represented as absent there. -/
theorem c9_result_fields_default_absent (p f : String) (s : ℕ) :
    (mkIResultMinimal p f).path = p ∧
    (mkIResultMinimal p f).filename = f ∧
    (mkIResultMinimal p f).extension = none ∧
    (mkIResultMinimal p f).size = none ∧
    (mkIResultMinimal p f).created = none ∧
    (mkIResultMinimal p f).modified = none ∧
    (mkIResultMinimal p f).accessed = none ∧
    (mkIResultMinimal p f).attributes = none ∧
    sdkValidate { path := some p, filename := some f, size := some s } =
      Except.ok { path := p, filename := f, size := s } ∧
    sdkValidate {} = Except.error "validation error: missing required field" :=
  ⟨rfl, rfl, rfl, rfl, rfl, rfl, rfl, rfl, rfl, rfl⟩

/-- Claim C10: the search tool-call handler is total — for every platform,
environment and arguments map it returns a one-element list of text, and
every internal failure is rendered as a single message beginning with
Search failed. -/
theorem c10_call_tool_total (os : PlatformOS) (env : WorldEnv) (args : ToolArgs) :
    ∃ t, callToolSearch os env args = [t] ∧
      (searchPipeline os env args = Except.ok t ∨
       ∃ e, searchPipeline os env args = Except.error e ∧ t = "Search failed: " ++ e) := by
  cases hp : searchPipeline os env args with
  | error e =>
    exact ⟨"Search failed: " ++ e, by rw [callToolSearch, hp], Or.inr ⟨e, rfl, rfl⟩⟩
  | ok t =>
    exact ⟨t, by rw [callToolSearch, hp], Or.inl rfl⟩
